import Mathlib

/-!
Verification of the randomstring-app HTTP service (`index.mjs`).

The service generates five random strings (alphanumeric, distinguishable,
ascii-printable, url-safe, lowercase) of a requested length, rendered as a
plain-text body, and routes `GET /`, `GET /:len` and `GET /alb-health-check`
through an Express app, with a trailing 404 handler.

Randomness is modelled by an explicit index stream `rand : Nat → Nat`: each
generated character is the alphabet entry at `rand i % alphabet.length`.
-/

namespace RandomStringApp

/-- One character pick: the alphabet entry at index `n` modulo the alphabet
size (the default is unreachable for the nonempty alphabets used here). -/
def pick (chars : List Char) (n : Nat) : Char :=
  chars.getD (n % chars.length) ' '

/-- The list of `n` characters drawn from `chars` by the index stream `rand`. -/
def randomList (chars : List Char) (n : Nat) (rand : Nat → Nat) : List Char :=
  (List.range n).map (fun i => pick chars (rand i))

/-- Modelled from the spec: the call into the `crypto-random-string` library
(the library itself is a dependency, not part of `src/`). It produces a string
of exactly `length` characters drawn from the policy's alphabet with a
cryptographically secure source, and rejects a negative `length`
(the library throws a TypeError there), modelled as `none`. -/
def cryptoRandomString (chars : List Char) (len : Int) (rand : Nat → Nat) :
    Option String :=
  if len < 0 then none
  else some (String.mk (randomList chars len.toNat rand))

/-- Modelled from the spec: the alphabet of the `alphanumeric` policy
(a-z, A-Z, 0-9). -/
def alphanumericChars : List Char :=
  "ABCDEFGHIJKLMNOPQRSTUVWXYZabcdefghijklmnopqrstuvwxyz0123456789".data

/-- Modelled from the spec: the alphabet of the `distinguishable` policy,
the exclusion list used by the original random-string library (visually
ambiguous characters such as O, I, l are excluded). -/
def distinguishableChars : List Char :=
  "CDEHKMPRTUWXY012458".data

/-- Modelled from the spec: the alphabet of the `ascii-printable` (password)
policy, the full ASCII printable range 33-126. -/
def asciiPrintableChars : List Char :=
  (List.range 94).map (fun i => Char.ofNat (33 + i))

/-- Modelled from the spec: the alphabet of the `url-safe` policy, letters,
digits and characters valid unescaped in URL segments, as used by the
original random-string library. -/
def urlSafeChars : List Char :=
  "abcdefghijklmnopqrstuvwxyzABCDEFGHIJKLMNOPQRSTUVWXYZ0123456789._~-".data

/-- The custom alphabet passed literally in `index.mjs` for the fifth string. -/
def lowercaseChars : List Char :=
  "abcdefghijklmnopqrstuvwxyz".data

/-- `generate` from `index.mjs`: five random strings assembled into the
plain-text template. The randomness of the five independent library calls is
an indexed family of streams `rand : Nat → Nat → Nat`. -/
def generate (l : Int) (rand : Nat → Nat → Nat) : Option String := do
  let a ← cryptoRandomString alphanumericChars l (rand 0)
  let b ← cryptoRandomString distinguishableChars l (rand 1)
  let c ← cryptoRandomString asciiPrintableChars l (rand 2)
  let d ← cryptoRandomString urlSafeChars l (rand 3)
  let e ← cryptoRandomString lowercaseChars l (rand 4)
  pure ("Random Stuff:\n" ++ a ++ "\n\nEasy to read:\n" ++ b ++
    "\n\nPasswords:\n" ++ c ++ "\n\nURL-safe:\n" ++ d ++
    "\n\nLower-case:\n" ++ e ++ "\n\n")

/-- Value of a list of decimal digit characters, most significant first. -/
def digitsVal (ds : List Char) : Nat :=
  ds.foldl (fun n c => 10 * n + (c.toNat - 48)) 0

/-- JavaScript `parseInt(s, 10)`: skip leading whitespace, an optional sign,
then the longest prefix of decimal digits; `none` models `NaN` (no digits). -/
def jsParseInt (s : String) : Option Int :=
  let cs := s.data.dropWhile (fun c =>
    c == ' ' || c == '\t' || c == '\n' || c == '\r' || c == '\x0b' || c == '\x0c')
  match cs with
  | '-' :: rest =>
    let ds := rest.takeWhile Char.isDigit
    if ds.isEmpty then none else some (-(digitsVal ds : Int))
  | '+' :: rest =>
    let ds := rest.takeWhile Char.isDigit
    if ds.isEmpty then none else some ((digitsVal ds : Int))
  | _ =>
    let ds := cs.takeWhile Char.isDigit
    if ds.isEmpty then none else some ((digitsVal ds : Int))

/-- The effective length the `/:len` handler passes to `generate`:
`parseInt(req.params.len, 10) || 32` (falsy `NaN` and `0` fall back to 32),
then the ternary clamp `len > 128 ? 128 : len`. -/
def effectiveLen (seg : String) : Int :=
  let len : Int :=
    match jsParseInt seg with
    | none => 32
    | some v => if v = 0 then 32 else v
  if 128 < len then 128 else len

/-- An HTTP response: status code and body. -/
structure Response where
  status : Nat
  body : String
deriving DecidableEq

/-- A route handler: path segments and randomness to an optional response
(`none` models an exception thrown during handling). -/
def Handler := List String → (Nat → Nat → Nat) → Option Response

/-- An Express route pattern: the root path `/`, a single-segment parameter
`/:len`, or a fixed single-segment literal path. -/
inductive RoutePattern
  | root
  | param
  | fixed (s : String)

/-- Whether a pattern matches a path, given as its list of segments. -/
def RoutePattern.matchesPath : RoutePattern → List String → Bool
  | .root, [] => true
  | .param, [_] => true
  | .fixed s, [x] => x == s
  | _, _ => false

/-- Handler of `app.get("/")`: `res.send(generate(32))`. -/
def rootHandler : Handler := fun _ rand =>
  (generate 32 rand).map (fun b => ⟨200, b⟩)

/-- Handler of `app.get("/:len")`: parse the segment, fall back and clamp,
then send the generated body. -/
def lenHandler : Handler := fun path rand =>
  match path with
  | [seg] => (generate (effectiveLen seg) rand).map (fun b => ⟨200, b⟩)
  | _ => none

/-- Handler of `app.get("/alb-health-check")`: `res.send("ok")`. -/
def healthHandler : Handler := fun _ _ => some ⟨200, "ok"⟩

/-- The route table in registration order, as in `index.mjs`: `/` first,
then `/:len`, then `/alb-health-check`. -/
def routeTable : List (RoutePattern × Handler) :=
  [(.root, rootHandler), (.param, lenHandler),
   (.fixed "alb-health-check", healthHandler)]

/-- Express dispatch: the first matching route handles the request; otherwise
the trailing middleware answers `404 - File not found`. -/
def handleRequest (path : List String) (rand : Nat → Nat → Nat) :
    Option Response :=
  match routeTable.find? (fun r => r.1.matchesPath path) with
  | some r => r.2 path rand
  | none => some ⟨404, "404 - File not found"⟩

/-- Modelled from the spec: the JSON document returned by the
`GET /api/v1/random?length=n` endpoint — fields `length`, `strings` (an
object keyed by the five labels, inlined here as five fields) and
`generated_at` (an ISO-8601 UTC timestamp string). The implementation of
this endpoint belongs to the content-negotiating variant of the service and
is not under `src/`; only its README documentation and demo script are. -/
structure JsonRandom where
  length : Int
  alphanumeric : String
  distinguishable : String
  password : String
  urlsafe : String
  lowercase : String
  generated_at : String

/-- Modelled from the spec: the handler of `GET /api/v1/random?length=n`,
the JSON variant of the same generation, with `length` as a query
parameter and `now` the timestamp taken at response time. -/
def apiV1Random (n : Int) (rand : Nat → Nat → Nat) (now : String) :
    Option JsonRandom := do
  let a ← cryptoRandomString alphanumericChars n (rand 0)
  let b ← cryptoRandomString distinguishableChars n (rand 1)
  let c ← cryptoRandomString asciiPrintableChars n (rand 2)
  let d ← cryptoRandomString urlSafeChars n (rand 3)
  let e ← cryptoRandomString lowercaseChars n (rand 4)
  pure ⟨n, a, b, c, d, e, now⟩

/-! ### Helper lemmas -/

theorem data_append (s t : String) : (s ++ t).data = s.data ++ t.data := by
  cases s; cases t; rfl

theorem length_mk (l : List Char) : (String.mk l).length = l.length := rfl

theorem pick_mem (chars : List Char) (n : Nat) (h : chars ≠ []) :
    pick chars n ∈ chars := by
  have hl : 0 < chars.length := List.length_pos.mpr h
  have hm : n % chars.length < chars.length := Nat.mod_lt _ hl
  unfold pick
  rw [List.getD_eq_getElem chars ' ' hm]
  exact List.getElem_mem hm

theorem randomList_length (chars : List Char) (n : Nat) (rand : Nat → Nat) :
    (randomList chars n rand).length = n := by
  simp [randomList]

theorem randomList_mem (chars : List Char) (n : Nat) (rand : Nat → Nat)
    (h : chars ≠ []) : ∀ c ∈ randomList chars n rand, c ∈ chars := by
  intro c hc
  simp only [randomList, List.mem_map] at hc
  obtain ⟨i, _, hi⟩ := hc
  rw [← hi]
  exact pick_mem chars (rand i) h

theorem randomList_count_eq_zero (chars : List Char) (n : Nat)
    (rand : Nat → Nat) (c : Char) (h : chars ≠ []) (hc : c ∉ chars) :
    (randomList chars n rand).count c = 0 := by
  rw [List.count_eq_zero]
  intro hmem
  exact hc (randomList_mem chars n rand h c hmem)

theorem cryptoRandomString_eq (chars : List Char) (len : Int)
    (rand : Nat → Nat) (h : 0 ≤ len) :
    cryptoRandomString chars len rand =
      some (String.mk (randomList chars len.toNat rand)) := by
  unfold cryptoRandomString
  rw [if_neg (not_lt.mpr h)]

theorem cryptoRandomString_spec (chars : List Char) (len : Int)
    (rand : Nat → Nat) (h : 0 ≤ len) (hne : chars ≠ []) :
    ∃ s, cryptoRandomString chars len rand = some s ∧
      s.length = len.toNat ∧ ∀ c ∈ s.data, c ∈ chars := by
  refine ⟨String.mk (randomList chars len.toNat rand),
    cryptoRandomString_eq chars len rand h, ?_, ?_⟩
  · rw [length_mk, randomList_length]
  · exact randomList_mem chars len.toNat rand hne

theorem data_mk (l : List Char) : (String.mk l).data = l := rfl

theorem generate_eq (l : Int) (rand : Nat → Nat → Nat) (h : 0 ≤ l) :
    generate l rand = some ("Random Stuff:\n" ++
      String.mk (randomList alphanumericChars l.toNat (rand 0)) ++
      "\n\nEasy to read:\n" ++
      String.mk (randomList distinguishableChars l.toNat (rand 1)) ++
      "\n\nPasswords:\n" ++
      String.mk (randomList asciiPrintableChars l.toNat (rand 2)) ++
      "\n\nURL-safe:\n" ++
      String.mk (randomList urlSafeChars l.toNat (rand 3)) ++
      "\n\nLower-case:\n" ++
      String.mk (randomList lowercaseChars l.toNat (rand 4)) ++ "\n\n") := by
  simp only [generate, cryptoRandomString_eq _ _ _ h, Option.bind_eq_bind,
    Option.some_bind, Option.pure_def]

theorem generate_data (l : Int) (rand : Nat → Nat → Nat) (h : 0 ≤ l) :
    ∃ s, generate l rand = some s ∧
      s.data = "Random Stuff:\n".data ++
        randomList alphanumericChars l.toNat (rand 0) ++
        "\n\nEasy to read:\n".data ++
        randomList distinguishableChars l.toNat (rand 1) ++
        "\n\nPasswords:\n".data ++
        randomList asciiPrintableChars l.toNat (rand 2) ++
        "\n\nURL-safe:\n".data ++
        randomList urlSafeChars l.toNat (rand 3) ++
        "\n\nLower-case:\n".data ++
        randomList lowercaseChars l.toNat (rand 4) ++ "\n\n".data := by
  refine ⟨_, generate_eq l rand h, ?_⟩
  simp only [data_append, data_mk]

theorem alphanumericChars_ne_nil : alphanumericChars ≠ [] := by decide

theorem distinguishableChars_ne_nil : distinguishableChars ≠ [] := by decide

theorem asciiPrintableChars_ne_nil : asciiPrintableChars ≠ [] := by decide

theorem urlSafeChars_ne_nil : urlSafeChars ≠ [] := by decide

theorem lowercaseChars_ne_nil : lowercaseChars ≠ [] := by decide

theorem newline_notin_alphanumeric : '\n' ∉ alphanumericChars := by decide

theorem newline_notin_distinguishable : '\n' ∉ distinguishableChars := by decide

theorem newline_notin_asciiPrintable : '\n' ∉ asciiPrintableChars := by decide

theorem newline_notin_urlSafe : '\n' ∉ urlSafeChars := by decide

theorem newline_notin_lowercase : '\n' ∉ lowercaseChars := by decide

theorem count_nl_alphanumeric (n : Nat) (rand : Nat → Nat) :
    (randomList alphanumericChars n rand).count '\n' = 0 :=
  randomList_count_eq_zero _ _ _ _ alphanumericChars_ne_nil
    newline_notin_alphanumeric

theorem count_nl_distinguishable (n : Nat) (rand : Nat → Nat) :
    (randomList distinguishableChars n rand).count '\n' = 0 :=
  randomList_count_eq_zero _ _ _ _ distinguishableChars_ne_nil
    newline_notin_distinguishable

theorem count_nl_asciiPrintable (n : Nat) (rand : Nat → Nat) :
    (randomList asciiPrintableChars n rand).count '\n' = 0 :=
  randomList_count_eq_zero _ _ _ _ asciiPrintableChars_ne_nil
    newline_notin_asciiPrintable

theorem count_nl_urlSafe (n : Nat) (rand : Nat → Nat) :
    (randomList urlSafeChars n rand).count '\n' = 0 :=
  randomList_count_eq_zero _ _ _ _ urlSafeChars_ne_nil
    newline_notin_urlSafe

theorem count_nl_lowercase (n : Nat) (rand : Nat → Nat) :
    (randomList lowercaseChars n rand).count '\n' = 0 :=
  randomList_count_eq_zero _ _ _ _ lowercaseChars_ne_nil
    newline_notin_lowercase

theorem generate_stats (l : Int) (rand : Nat → Nat → Nat) (h : 0 ≤ l) :
    ∃ s, generate l rand = some s ∧ s.length = 5 * l.toNat + 71 ∧
      s.data.count '\n' = 15 ∧ ∃ t, s.data = t ++ ['\n', '\n'] := by
  obtain ⟨s, hs, hdata⟩ := generate_data l rand h
  refine ⟨s, hs, ?_, ?_, ?_⟩
  · rw [← String.length_data, hdata]
    simp only [List.length_append, randomList_length]
    have e1 : ("Random Stuff:\n".data).length = 14 := rfl
    have e2 : ("\n\nEasy to read:\n".data).length = 16 := rfl
    have e3 : ("\n\nPasswords:\n".data).length = 13 := rfl
    have e4 : ("\n\nURL-safe:\n".data).length = 12 := rfl
    have e5 : ("\n\nLower-case:\n".data).length = 14 := rfl
    have e6 : ("\n\n".data).length = 2 := rfl
    rw [e1, e2, e3, e4, e5, e6]
    omega
  · rw [hdata]
    simp only [List.count_append, count_nl_alphanumeric,
      count_nl_distinguishable, count_nl_asciiPrintable, count_nl_urlSafe,
      count_nl_lowercase]
    have c1 : ("Random Stuff:\n".data).count '\n' = 1 := rfl
    have c2 : ("\n\nEasy to read:\n".data).count '\n' = 3 := rfl
    have c3 : ("\n\nPasswords:\n".data).count '\n' = 3 := rfl
    have c4 : ("\n\nURL-safe:\n".data).count '\n' = 3 := rfl
    have c5 : ("\n\nLower-case:\n".data).count '\n' = 3 := rfl
    have c6 : ("\n\n".data).count '\n' = 2 := rfl
    rw [c1, c2, c3, c4, c5, c6]
  · refine ⟨"Random Stuff:\n".data ++
      randomList alphanumericChars l.toNat (rand 0) ++
      "\n\nEasy to read:\n".data ++
      randomList distinguishableChars l.toNat (rand 1) ++
      "\n\nPasswords:\n".data ++
      randomList asciiPrintableChars l.toNat (rand 2) ++
      "\n\nURL-safe:\n".data ++
      randomList urlSafeChars l.toNat (rand 3) ++
      "\n\nLower-case:\n".data ++
      randomList lowercaseChars l.toNat (rand 4), ?_⟩
    rw [hdata]

/-! ### Router dispatch lemmas -/

theorem handleRequest_root (rand : Nat → Nat → Nat) :
    handleRequest [] rand = (generate 32 rand).map (fun b => ⟨200, b⟩) := rfl

theorem handleRequest_single (seg : String) (rand : Nat → Nat → Nat) :
    handleRequest [seg] rand =
      (generate (effectiveLen seg) rand).map (fun b => ⟨200, b⟩) := rfl

theorem handleRequest_multi (x y : String) (rest : List String)
    (rand : Nat → Nat → Nat) :
    handleRequest (x :: y :: rest) rand =
      some ⟨404, "404 - File not found"⟩ := rfl

theorem effectiveLen_of_none (seg : String) (h : jsParseInt seg = none) :
    effectiveLen seg = 32 := by
  simp only [effectiveLen, h]
  decide

theorem effectiveLen_of_zero (seg : String) (h : jsParseInt seg = some 0) :
    effectiveLen seg = 32 := by
  simp only [effectiveLen, h]
  norm_num

theorem effectiveLen_of_pos_le (seg : String) (v : Int)
    (h : jsParseInt seg = some v) (h1 : 0 < v) (h2 : v ≤ 128) :
    effectiveLen seg = v := by
  simp only [effectiveLen, h]
  rw [if_neg (by omega : ¬ v = 0), if_neg (by omega : ¬ 128 < v)]

theorem effectiveLen_of_gt (seg : String) (v : Int)
    (h : jsParseInt seg = some v) (hv : 128 < v) :
    effectiveLen seg = 128 := by
  simp only [effectiveLen, h]
  rw [if_neg (by omega : ¬ v = 0), if_pos hv]

/-- The five labeled sections of the generated body, each of the effective
length, in source order, with the body equal to the fixed template around
them. -/
theorem generate_sections (l : Int) (rand : Nat → Nat → Nat) (h : 0 ≤ l) :
    ∃ a b c d e : String,
      generate l rand = some ("Random Stuff:\n" ++ a ++
        "\n\nEasy to read:\n" ++ b ++ "\n\nPasswords:\n" ++ c ++
        "\n\nURL-safe:\n" ++ d ++ "\n\nLower-case:\n" ++ e ++ "\n\n") ∧
      a.length = l.toNat ∧ b.length = l.toNat ∧ c.length = l.toNat ∧
      d.length = l.toNat ∧ e.length = l.toNat ∧
      cryptoRandomString alphanumericChars l (rand 0) = some a ∧
      cryptoRandomString distinguishableChars l (rand 1) = some b ∧
      cryptoRandomString asciiPrintableChars l (rand 2) = some c ∧
      cryptoRandomString urlSafeChars l (rand 3) = some d ∧
      cryptoRandomString lowercaseChars l (rand 4) = some e := by
  refine ⟨String.mk (randomList alphanumericChars l.toNat (rand 0)),
    String.mk (randomList distinguishableChars l.toNat (rand 1)),
    String.mk (randomList asciiPrintableChars l.toNat (rand 2)),
    String.mk (randomList urlSafeChars l.toNat (rand 3)),
    String.mk (randomList lowercaseChars l.toNat (rand 4)),
    generate_eq l rand h, ?_, ?_, ?_, ?_, ?_,
    cryptoRandomString_eq _ _ _ h, cryptoRandomString_eq _ _ _ h,
    cryptoRandomString_eq _ _ _ h, cryptoRandomString_eq _ _ _ h,
    cryptoRandomString_eq _ _ _ h⟩ <;>
  rw [length_mk, randomList_length]

/-! ### Claim theorems -/

/-- C1: for every length `l` in [1,128] and each of the five character-set
policies (alphanumeric, distinguishable, password/ascii-printable, url-safe,
lowercase a-z), the string produced by `generate` for that policy has
exactly `l` characters and every character belongs to that policy's
alphabet. -/
theorem policy_strings_length_and_alphabet (l : Int) (rand : Nat → Nat → Nat)
    (h1 : 1 ≤ l) (h2 : l ≤ 128) :
    (∃ s, cryptoRandomString alphanumericChars l (rand 0) = some s ∧
      s.length = l.toNat ∧ ∀ c ∈ s.data, c ∈ alphanumericChars) ∧
    (∃ s, cryptoRandomString distinguishableChars l (rand 1) = some s ∧
      s.length = l.toNat ∧ ∀ c ∈ s.data, c ∈ distinguishableChars) ∧
    (∃ s, cryptoRandomString asciiPrintableChars l (rand 2) = some s ∧
      s.length = l.toNat ∧ ∀ c ∈ s.data, c ∈ asciiPrintableChars) ∧
    (∃ s, cryptoRandomString urlSafeChars l (rand 3) = some s ∧
      s.length = l.toNat ∧ ∀ c ∈ s.data, c ∈ urlSafeChars) ∧
    (∃ s, cryptoRandomString lowercaseChars l (rand 4) = some s ∧
      s.length = l.toNat ∧ ∀ c ∈ s.data, c ∈ lowercaseChars) := by
  have h0 : 0 ≤ l := by omega
  exact ⟨cryptoRandomString_spec _ _ _ h0 alphanumericChars_ne_nil,
    cryptoRandomString_spec _ _ _ h0 distinguishableChars_ne_nil,
    cryptoRandomString_spec _ _ _ h0 asciiPrintableChars_ne_nil,
    cryptoRandomString_spec _ _ _ h0 urlSafeChars_ne_nil,
    cryptoRandomString_spec _ _ _ h0 lowercaseChars_ne_nil⟩

/-- Witness for C1 at `l = 3` with the constant index stream. -/
theorem policy_strings_length_and_alphabet_witness :
    (1 : Int) ≤ 3 ∧ (3 : Int) ≤ 128 ∧
    ((∃ s, cryptoRandomString alphanumericChars 3 ((fun _ _ => 0) 0) = some s ∧
      s.length = (3 : Int).toNat ∧ ∀ c ∈ s.data, c ∈ alphanumericChars) ∧
    (∃ s, cryptoRandomString distinguishableChars 3 ((fun _ _ => 0) 1) = some s ∧
      s.length = (3 : Int).toNat ∧ ∀ c ∈ s.data, c ∈ distinguishableChars) ∧
    (∃ s, cryptoRandomString asciiPrintableChars 3 ((fun _ _ => 0) 2) = some s ∧
      s.length = (3 : Int).toNat ∧ ∀ c ∈ s.data, c ∈ asciiPrintableChars) ∧
    (∃ s, cryptoRandomString urlSafeChars 3 ((fun _ _ => 0) 3) = some s ∧
      s.length = (3 : Int).toNat ∧ ∀ c ∈ s.data, c ∈ urlSafeChars) ∧
    (∃ s, cryptoRandomString lowercaseChars 3 ((fun _ _ => 0) 4) = some s ∧
      s.length = (3 : Int).toNat ∧ ∀ c ∈ s.data, c ∈ lowercaseChars)) :=
  ⟨by norm_num, by norm_num,
    policy_strings_length_and_alphabet 3 (fun _ _ => 0) (by norm_num)
      (by norm_num)⟩

/-- C2 counterexample: the path segment "-5" parses to -5, a truthy value in
JavaScript, so `parseInt(len, 10) || 32` does not normalize it: the length
passed to `generate` is -5, and the request yields no normal response at
all (the random-string library rejects a negative length), contradicting
the claim that every non-positive length is silently replaced by 32. -/
theorem negative_length_not_normalized :
    effectiveLen "-5" = -5 ∧ handleRequest ["-5"] (fun _ _ => 0) = none :=
  ⟨by decide, by decide⟩

/-- C2 (amended): a path segment that is non-numeric (parses to NaN) or
parses to 0 falls back to the default length 32 with no error, yielding a
normal 32-character-per-policy response; segments parsing to a negative
number are not normalized. -/
theorem nan_or_zero_falls_back_to_32 (seg : String) (rand : Nat → Nat → Nat)
    (h : jsParseInt seg = none ∨ jsParseInt seg = some 0) :
    ∃ a b c d e : String,
      handleRequest [seg] rand = some ⟨200, "Random Stuff:\n" ++ a ++
        "\n\nEasy to read:\n" ++ b ++ "\n\nPasswords:\n" ++ c ++
        "\n\nURL-safe:\n" ++ d ++ "\n\nLower-case:\n" ++ e ++ "\n\n"⟩ ∧
      a.length = 32 ∧ b.length = 32 ∧ c.length = 32 ∧ d.length = 32 ∧
      e.length = 32 := by
  have heff : effectiveLen seg = 32 := by
    rcases h with h | h
    · exact effectiveLen_of_none seg h
    · exact effectiveLen_of_zero seg h
  rw [handleRequest_single, heff]
  obtain ⟨a, b, c, d, e, hgen, ha, hb, hc, hd, he, _⟩ :=
    generate_sections 32 rand (by norm_num)
  rw [hgen, Option.map_some']
  exact ⟨a, b, c, d, e, rfl, by simpa using ha, by simpa using hb,
    by simpa using hc, by simpa using hd, by simpa using he⟩

/-- Witness for the amended C2 at the non-numeric segment "abc". -/
theorem nan_or_zero_falls_back_to_32_witness :
    (jsParseInt "abc" = none ∨ jsParseInt "abc" = some 0) ∧
    (∃ a b c d e : String,
      handleRequest ["abc"] (fun _ _ => 0) = some ⟨200, "Random Stuff:\n" ++
        a ++ "\n\nEasy to read:\n" ++ b ++ "\n\nPasswords:\n" ++ c ++
        "\n\nURL-safe:\n" ++ d ++ "\n\nLower-case:\n" ++ e ++ "\n\n"⟩ ∧
      a.length = 32 ∧ b.length = 32 ∧ c.length = 32 ∧ d.length = 32 ∧
      e.length = 32) :=
  ⟨Or.inl (by decide),
    nan_or_zero_falls_back_to_32 "abc" (fun _ _ => 0) (Or.inl (by decide))⟩

/-- C3 (code bug): GET /alb-health-check does not answer "ok". The `/:len`
route is registered before `/alb-health-check`, matches the single path
segment first, parses it as NaN, falls back to length 32 and responds with
the 231-character generation body. The health handler itself would answer
"ok" but is unreachable. -/
theorem health_check_route_shadowed (rand : Nat → Nat → Nat) :
    (∃ s, handleRequest ["alb-health-check"] rand = some ⟨200, s⟩ ∧
      s.length = 231 ∧ s ≠ "ok") ∧
    healthHandler ["alb-health-check"] rand = some ⟨200, "ok"⟩ := by
  refine ⟨?_, rfl⟩
  have heff : effectiveLen "alb-health-check" = 32 := by decide
  rw [handleRequest_single, heff]
  obtain ⟨s, hs, hl, _, _⟩ := generate_stats 32 rand (by norm_num)
  have h231 : s.length = 231 := by omega
  rw [hs, Option.map_some']
  refine ⟨s, rfl, h231, fun heq => absurd (heq ▸ h231) (by decide)⟩

/-- C4: a path segment parsing to a number greater than 128 is clamped to
128, so each of the five returned strings has exactly 128 characters. -/
theorem oversized_length_clamped (seg : String) (v : Int)
    (rand : Nat → Nat → Nat) (hp : jsParseInt seg = some v) (hv : 128 < v) :
    ∃ a b c d e : String,
      handleRequest [seg] rand = some ⟨200, "Random Stuff:\n" ++ a ++
        "\n\nEasy to read:\n" ++ b ++ "\n\nPasswords:\n" ++ c ++
        "\n\nURL-safe:\n" ++ d ++ "\n\nLower-case:\n" ++ e ++ "\n\n"⟩ ∧
      a.length = 128 ∧ b.length = 128 ∧ c.length = 128 ∧ d.length = 128 ∧
      e.length = 128 := by
  rw [handleRequest_single, effectiveLen_of_gt seg v hp hv]
  obtain ⟨a, b, c, d, e, hgen, ha, hb, hc, hd, he, _⟩ :=
    generate_sections 128 rand (by norm_num)
  rw [hgen, Option.map_some']
  exact ⟨a, b, c, d, e, rfl, by simpa using ha, by simpa using hb,
    by simpa using hc, by simpa using hd, by simpa using he⟩

/-- Witness for C4 at the segment "500". -/
theorem oversized_length_clamped_witness :
    jsParseInt "500" = some 500 ∧ (128 : Int) < 500 ∧
    (∃ a b c d e : String,
      handleRequest ["500"] (fun _ _ => 0) = some ⟨200, "Random Stuff:\n" ++
        a ++ "\n\nEasy to read:\n" ++ b ++ "\n\nPasswords:\n" ++ c ++
        "\n\nURL-safe:\n" ++ d ++ "\n\nLower-case:\n" ++ e ++ "\n\n"⟩ ∧
      a.length = 128 ∧ b.length = 128 ∧ c.length = 128 ∧ d.length = 128 ∧
      e.length = 128) :=
  ⟨by decide, by norm_num,
    oversized_length_clamped "500" 500 (fun _ _ => 0) (by decide)
      (by norm_num)⟩

/-- C5: GET /api/v1/random?length=8 answers a JSON object whose five labeled
strings are each 8 characters long, whose `length` field equals 8, and
which carries a `generated_at` timestamp (the endpoint is modelled from the
spec, see `apiV1Random`). -/
theorem api_v1_random_length_8 (rand : Nat → Nat → Nat) (now : String) :
    ∃ r : JsonRandom, apiV1Random 8 rand now = some r ∧ r.length = 8 ∧
      r.alphanumeric.length = 8 ∧ r.distinguishable.length = 8 ∧
      r.password.length = 8 ∧ r.urlsafe.length = 8 ∧
      r.lowercase.length = 8 ∧ r.generated_at = now := by
  have h8 : (0 : Int) ≤ 8 := by norm_num
  refine ⟨⟨8, String.mk (randomList alphanumericChars (8 : Int).toNat (rand 0)),
    String.mk (randomList distinguishableChars (8 : Int).toNat (rand 1)),
    String.mk (randomList asciiPrintableChars (8 : Int).toNat (rand 2)),
    String.mk (randomList urlSafeChars (8 : Int).toNat (rand 3)),
    String.mk (randomList lowercaseChars (8 : Int).toNat (rand 4)), now⟩,
    ?_, rfl, ?_, ?_, ?_, ?_, ?_, rfl⟩
  · simp only [apiV1Random, cryptoRandomString_eq _ _ _ h8,
      Option.bind_eq_bind, Option.some_bind, Option.pure_def]
  all_goals rw [length_mk, randomList_length]
  all_goals decide

/-- C6: the plain-text body of every valid generation concatenates the five
labeled random strings under fixed section headers, in the fixed policy
order alphanumeric, distinguishable, password, url-safe, lowercase, each
section terminated by a blank line. -/
theorem plaintext_sections_fixed_order (l : Int) (rand : Nat → Nat → Nat)
    (h : 0 ≤ l) :
    ∃ a b c d e : String,
      generate l rand = some ("Random Stuff:\n" ++ a ++
        "\n\nEasy to read:\n" ++ b ++ "\n\nPasswords:\n" ++ c ++
        "\n\nURL-safe:\n" ++ d ++ "\n\nLower-case:\n" ++ e ++ "\n\n") ∧
      cryptoRandomString alphanumericChars l (rand 0) = some a ∧
      cryptoRandomString distinguishableChars l (rand 1) = some b ∧
      cryptoRandomString asciiPrintableChars l (rand 2) = some c ∧
      cryptoRandomString urlSafeChars l (rand 3) = some d ∧
      cryptoRandomString lowercaseChars l (rand 4) = some e := by
  obtain ⟨a, b, c, d, e, hgen, _, _, _, _, _, h1, h2, h3, h4, h5⟩ :=
    generate_sections l rand h
  exact ⟨a, b, c, d, e, hgen, h1, h2, h3, h4, h5⟩

/-- Witness for C6 at `l = 2` with the constant index stream. -/
theorem plaintext_sections_fixed_order_witness :
    (0 : Int) ≤ 2 ∧
    (∃ a b c d e : String,
      generate 2 (fun _ _ => 0) = some ("Random Stuff:\n" ++ a ++
        "\n\nEasy to read:\n" ++ b ++ "\n\nPasswords:\n" ++ c ++
        "\n\nURL-safe:\n" ++ d ++ "\n\nLower-case:\n" ++ e ++ "\n\n") ∧
      cryptoRandomString alphanumericChars 2 ((fun _ _ => 0) 0) = some a ∧
      cryptoRandomString distinguishableChars 2 ((fun _ _ => 0) 1) = some b ∧
      cryptoRandomString asciiPrintableChars 2 ((fun _ _ => 0) 2) = some c ∧
      cryptoRandomString urlSafeChars 2 ((fun _ _ => 0) 3) = some d ∧
      cryptoRandomString lowercaseChars 2 ((fun _ _ => 0) 4) = some e) :=
  ⟨by norm_num, plaintext_sections_fixed_order 2 (fun _ _ => 0) (by norm_num)⟩

/-- C7 counterexample: the path segment "-1" produces a third error class
the claim does not admit: the handler passes the negative length to
`generate`, which rejects it, so the request ends in a thrown error (`none`)
rather than a 404 or a silently normalized response. -/
theorem negative_length_error_class :
    handleRequest ["-1"] (fun _ _ => 0) = none := by decide

/-- C7 (amended): every request whose path matches no route (two or more
segments) is answered with the generic 404 body; non-numeric and zero
lengths are silently normalized, but a negative parsed length additionally
produces an internal error from the generation call. -/
theorem unmatched_routes_get_404 (path : List String)
    (rand : Nat → Nat → Nat) (h : 2 ≤ path.length) :
    handleRequest path rand = some ⟨404, "404 - File not found"⟩ := by
  match path with
  | [] => simp at h
  | [x] => simp at h
  | x :: y :: rest => exact handleRequest_multi x y rest rand

/-- Witness for the amended C7 at the two-segment path /a/b. -/
theorem unmatched_routes_get_404_witness :
    2 ≤ (["a", "b"] : List String).length ∧
    handleRequest ["a", "b"] (fun _ _ => 0) =
      some ⟨404, "404 - File not found"⟩ :=
  ⟨by decide, unmatched_routes_get_404 ["a", "b"] (fun _ _ => 0) (by decide)⟩

/-- C8: GET / answers the generation result for the default length 32: each
of the five strings in the plain-text response has exactly 32 characters. -/
theorem root_returns_default_32 (rand : Nat → Nat → Nat) :
    ∃ a b c d e : String,
      handleRequest [] rand = some ⟨200, "Random Stuff:\n" ++ a ++
        "\n\nEasy to read:\n" ++ b ++ "\n\nPasswords:\n" ++ c ++
        "\n\nURL-safe:\n" ++ d ++ "\n\nLower-case:\n" ++ e ++ "\n\n"⟩ ∧
      a.length = 32 ∧ b.length = 32 ∧ c.length = 32 ∧ d.length = 32 ∧
      e.length = 32 := by
  rw [handleRequest_root]
  obtain ⟨a, b, c, d, e, hgen, ha, hb, hc, hd, he, _⟩ :=
    generate_sections 32 rand (by norm_num)
  rw [hgen, Option.map_some']
  exact ⟨a, b, c, d, e, rfl, by simpa using ha, by simpa using hb,
    by simpa using hc, by simpa using hd, by simpa using he⟩

/-- C9: a path segment that begins with digits but has trailing non-digit
characters is parsed as its leading numeric prefix, and the response strings
have that length rather than the default 32 (witnessed at "12abc"). -/
theorem digit_prefix_sets_length (seg : String) (v : Int)
    (rand : Nat → Nat → Nat) (hp : jsParseInt seg = some v) (h1 : 0 < v)
    (h2 : v ≤ 128) :
    ∃ a b c d e : String,
      handleRequest [seg] rand = some ⟨200, "Random Stuff:\n" ++ a ++
        "\n\nEasy to read:\n" ++ b ++ "\n\nPasswords:\n" ++ c ++
        "\n\nURL-safe:\n" ++ d ++ "\n\nLower-case:\n" ++ e ++ "\n\n"⟩ ∧
      a.length = v.toNat ∧ b.length = v.toNat ∧ c.length = v.toNat ∧
      d.length = v.toNat ∧ e.length = v.toNat := by
  rw [handleRequest_single, effectiveLen_of_pos_le seg v hp h1 h2]
  obtain ⟨a, b, c, d, e, hgen, ha, hb, hc, hd, he, _⟩ :=
    generate_sections v rand (by omega)
  rw [hgen, Option.map_some']
  exact ⟨a, b, c, d, e, rfl, ha, hb, hc, hd, he⟩

/-- Witness for C9 at the segment "12abc", whose leading numeric prefix is
12: the strings have 12 characters, not 32. -/
theorem digit_prefix_sets_length_witness :
    jsParseInt "12abc" = some 12 ∧ (0 : Int) < 12 ∧ (12 : Int) ≤ 128 ∧
    (12 : Int).toNat ≠ 32 ∧
    (∃ a b c d e : String,
      handleRequest ["12abc"] (fun _ _ => 0) = some ⟨200, "Random Stuff:\n" ++
        a ++ "\n\nEasy to read:\n" ++ b ++ "\n\nPasswords:\n" ++ c ++
        "\n\nURL-safe:\n" ++ d ++ "\n\nLower-case:\n" ++ e ++ "\n\n"⟩ ∧
      a.length = (12 : Int).toNat ∧ b.length = (12 : Int).toNat ∧
      c.length = (12 : Int).toNat ∧ d.length = (12 : Int).toNat ∧
      e.length = (12 : Int).toNat) :=
  ⟨by decide, by norm_num, by norm_num, by decide,
    digit_prefix_sets_length "12abc" 12 (fun _ _ => 0) (by decide)
      (by norm_num) (by norm_num)⟩

/-- C10: for every non-negative effective length `l` passed to `generate`,
the body has exactly `5 * l + 71` characters whatever the random draws, has
exactly 15 newline characters (five headed sections, each closed by a blank
line), and ends with two newline characters. -/
theorem body_length_affine (l : Int) (rand : Nat → Nat → Nat) (h : 0 ≤ l) :
    ∃ s, generate l rand = some s ∧ s.length = 5 * l.toNat + 71 ∧
      s.data.count '\n' = 15 ∧ ∃ t, s.data = t ++ ['\n', '\n'] :=
  generate_stats l rand h

/-- Witness for C10 at `l = 7` with the constant index stream. -/
theorem body_length_affine_witness :
    (0 : Int) ≤ 7 ∧
    (∃ s, generate 7 (fun _ _ => 0) = some s ∧
      s.length = 5 * (7 : Int).toNat + 71 ∧ s.data.count '\n' = 15 ∧
      ∃ t, s.data = t ++ ['\n', '\n']) :=
  ⟨by norm_num, body_length_affine 7 (fun _ _ => 0) (by norm_num)⟩

end RandomStringApp
